import Mathlib

/-!
Verification of `Imagine/imagine.py` (WorldGenerator).

This file shallowly embeds the parts of `imagine.py` needed to settle the
stated properties: the Black Forest Labs (BFL) submit-then-poll adapter
(`bfl_generate_image` lines 366-401 and `bfl_edit_image` lines 458-493, whose
submit/poll code is textually identical), path resolution
(`resolve_input_path`, `resolve_output_path`), the `variations` subcommand
dispatch (`variations_command`), temporary-file lifecycle in `edit_image` and
`create_variations`, and the image normalization performed by
`bfl_edit_image` before upload.

Network responses are modelled as explicit data supplied to the embedded
functions: the poller consumes a finite list of parsed status responses (one
per status GET actually answered by the provider), and image fetches are a
function from URL to an optional byte list (`none` models a transport
failure, i.e. `raise_for_status` raising).
-/

namespace Imagine

/-- A decoded raster image, modelled by the bytes it was decoded from
(`Image.open(io.BytesIO(content))` in the source). -/
structure DecodedImage where
  bytes : List Nat
  deriving DecidableEq, Repr

/-- One answered GET of the BFL status endpoint
(`requests.get(result_url, ...)` at lines 383/475), already parsed:
`ok` models `result_response.raise_for_status()` passing (HTTP success);
`status` is `result_data.get("status")` (absent key gives `none`);
`sample` is `result_data.get("result", {}).get("sample")`;
`raw` is the textual rendering of the full payload `result_data`, as it is
interpolated into error messages. -/
structure StatusResponse where
  ok : Bool
  status : Option String
  sample : Option String
  raw : String
  deriving DecidableEq, Repr

/-- The non-terminal statuses of the loop's `elif status not in
["Processing", "Queued", "Pending"]` test (lines 400/492). -/
def isNonTerminalStatus (s : Option String) : Bool :=
  s == some "Processing" || s == some "Queued" || s == some "Pending"

/-- Python truthiness test `if not image_url` (lines 391/483): the result
carries a usable sample URL iff the field is present and non-empty. -/
def hasSampleUrl (r : StatusResponse) : Bool :=
  match r.sample with
  | some u => !u.isEmpty
  | none => false

/-- Python `str` rendering of the status value as interpolated by the
f-string at lines 401/493 (`None` for a missing field). -/
def statusText : Option String → String
  | some s => s
  | none => "None"

/-- Message of the `requests.HTTPError` that `raise_for_status()` raises on a
non-success HTTP response; the exact text comes from the `requests` library,
so it is modelled by a fixed marker distinct from the other messages. -/
def bflHttpErrorMsg : String := "HTTP error from BFL API"

/-- Error message at lines 392/484. -/
def bflNoUrlMsg : String := "No image URL in result"

/-- Error message at lines 375/467. -/
def bflNoIdMsg : String := "No request ID returned from BFL API"

/-- The failure-terminal error message built at lines 401/493:
`f"Generation failed with status: {status}. Full response: {result_data}"`. -/
def bflFailMsg (r : StatusResponse) : String :=
  "Generation failed with status: " ++ statusText r.status
    ++ ". Full response: " ++ r.raw

/-- Outcome of the poll loop on a finite list of status responses:
`returned` models the `return Image.open(...)` at lines 398/490, `errored`
models a raised exception, and `pending` means every supplied response was
consumed without reaching a terminal state — the Python loop would sleep and
poll again. -/
inductive PollOutcome where
  | returned (img : DecodedImage)
  | errored (msg : String)
  | pending
  deriving DecidableEq, Repr

/-- A run of the poll loop together with the network calls it issued:
`statusPolls` counts GETs of the status endpoint (each loop iteration sleeps
1.5 s and then issues exactly one such GET, so it also counts sleeps), and
`resultFetches` counts GETs of the result URL (line 395/487). -/
structure PollRun where
  outcome : PollOutcome
  statusPolls : Nat
  resultFetches : Nat
  deriving DecidableEq, Repr

/-- Embedding of the `while True` poll loop at lines 381-401 of
`bfl_generate_image` (identical at lines 473-493 of `bfl_edit_image`).
The loop consumes one status response per iteration; `fetch url` is the body
of `requests.get(image_url)` (`none` when `img_response.raise_for_status()`
raises). An empty list of responses leaves the loop still waiting. -/
def bfl_poll_loop (fetch : String → Option (List Nat)) :
    List StatusResponse → PollRun
  | [] => ⟨PollOutcome.pending, 0, 0⟩
  | r :: rest =>
    if r.ok = false then
      ⟨PollOutcome.errored bflHttpErrorMsg, 1, 0⟩
    else if r.status = some "Ready" then
      match r.sample with
      | some url =>
        if url.isEmpty then ⟨PollOutcome.errored bflNoUrlMsg, 1, 0⟩
        else
          match fetch url with
          | some bs => ⟨PollOutcome.returned ⟨bs⟩, 1, 1⟩
          | none => ⟨PollOutcome.errored bflHttpErrorMsg, 1, 1⟩
      | none => ⟨PollOutcome.errored bflNoUrlMsg, 1, 0⟩
    else if isNonTerminalStatus r.status then
      let k := bfl_poll_loop fetch rest
      ⟨k.outcome, k.statusPolls + 1, k.resultFetches⟩
    else
      ⟨PollOutcome.errored (bflFailMsg r), 1, 0⟩

/-- The parsed response of the submission POST (lines 366-375/458-467):
`ok` models `response.raise_for_status()` passing, `id` is
`result.get("id")`. -/
structure SubmitResponse where
  ok : Bool
  id : Option String
  deriving DecidableEq, Repr

/-- Python truthiness test `if not request_id` (lines 374/466). -/
def hasRequestId (s : SubmitResponse) : Bool :=
  match s.id with
  | some i => !i.isEmpty
  | none => false

/-- Embedding of the submit-then-poll body shared by `bfl_generate_image`
(lines 366-401) and `bfl_edit_image` (lines 458-493): check the POST
response, require a request id, then run the poll loop. -/
def bfl_submit_then_poll (submit : SubmitResponse)
    (fetch : String → Option (List Nat))
    (statuses : List StatusResponse) : PollRun :=
  if submit.ok = false then ⟨PollOutcome.errored bflHttpErrorMsg, 0, 0⟩
  else if hasRequestId submit then bfl_poll_loop fetch statuses
  else ⟨PollOutcome.errored bflNoIdMsg, 0, 0⟩

/-- The first terminal status response in a sequence: the first one whose
status is outside {Processing, Queued, Pending}. -/
def firstTerminal (rs : List StatusResponse) : Option StatusResponse :=
  rs.find? (fun r => !isNonTerminalStatus r.status)

/-! ### Path resolution (lines 495-521), POSIX semantics -/

/-- Python `str.startswith`, computed on the character lists. -/
def strStartsWith (s pre : String) : Bool :=
  pre.data.isPrefixOf s.data

/-- Python `str.endswith`, computed on the character lists. -/
def strEndsWith (s suf : String) : Bool :=
  suf.data.isSuffixOf s.data

/-- `os.path.join a b` on POSIX, for the cases reachable here: an absolute
second component replaces the first; an empty or slash-terminated first
component adds no separator. -/
def pathJoin (a b : String) : String :=
  if strStartsWith b "/" then b
  else if a = "" then b
  else if strEndsWith a "/" then a ++ b
  else a ++ "/" ++ b

/-- Embedding of `resolve_output_path` (lines 495-499): join a relative
output path onto the output directory when one is given. `none` and the
empty string are both falsy for `if output_dir`. -/
def resolve_output_path (output : String) (output_dir : Option String) :
    String :=
  match output_dir with
  | some d =>
    if d ≠ "" ∧ ¬strStartsWith output "/" = true then pathJoin d output else output
  | none => output

/-- Embedding of `resolve_input_path` (lines 501-521) on a present (non-None)
input path; `ex` models `os.path.exists`. URLs and absolute paths pass
through; a relative path is joined onto a truthy `base_dir` exactly when the
joined path exists, and is otherwise returned unchanged. -/
def resolve_input_path_str (ex : String → Bool) (p : String)
    (base : Option String) : String :=
  if strStartsWith p "http://" || strStartsWith p "https://" then p
  else if strStartsWith p "/" then p
  else
    match base with
    | some b =>
      if b ≠ "" then (if ex (pathJoin b p) then pathJoin b p else p) else p
    | none => p

/-- Embedding of `resolve_input_path` including its `None` passthrough
(lines 508-509). -/
def resolve_input_path (ex : String → Bool) :
    Option String → Option String → Option String
  | none, _ => none
  | some p, base => some (resolve_input_path_str ex p base)

/-! ### The `variations` subcommand (lines 637-674)

The external world of one invocation is modelled by `FS`: the readable local
image files, the bodies served for URL downloads, and the images the OpenAI
variations endpoint returns. The command's observable behaviour is its
ordered list of side effects (network calls, files saved, lines printed)
plus the process exit code. -/

/-- Environment of one invocation: `file p` is the decoded content of local
path `p` (`none` when the path does not exist), `url u` the body served for
a GET of `u` (`none` when the download fails), and `variationsApi img n` the
decoded images returned by `client.images.create_variation` (`none` when the
API call raises). -/
structure FS where
  file : String → Option (List Nat)
  url : String → Option (List Nat)
  variationsApi : List Nat → Nat → Option (List (List Nat))

/-- Observable side effects of a command, in order. -/
inductive CmdEvent where
  | netGet (u : String)
  | apiCall
  | saved (path : String)
  | printed (msg : String)
  deriving DecidableEq, Repr

/-- The observable result of a command handler: its event trace and the
process exit code (0 success, 1 error, per lines 672-674). -/
structure CmdResult where
  events : List CmdEvent
  exitCode : Nat
  deriving DecidableEq, Repr

/-- Embedding of `process_image` (lines 60-79): a URL input is downloaded
with one GET (issued even when it fails); a local input must exist. Error
texts are abbreviated to their fixed prefixes. -/
def process_image (fs : FS) (path : String) :
    List CmdEvent × Except String DecodedImage :=
  if strStartsWith path "http://" || strStartsWith path "https://" then
    match fs.url path with
    | some bs => ([CmdEvent.netGet path], Except.ok ⟨bs⟩)
    | none =>
      ([CmdEvent.netGet path], Except.error "Failed to download image from URL")
  else
    match fs.file path with
    | some bs => ([], Except.ok ⟨bs⟩)
    | none => ([], Except.error ("Image file not found: " ++ path))

/-- `base_output.rsplit('.', 1)` as used at lines 664-665: the text before
the last dot, and the extension after it, defaulting to `png` when the
output name has no dot. -/
def variationBaseExt (s : String) : String × String :=
  let rev := s.data.reverse
  let afterRev := rev.takeWhile (fun c => c ≠ '.')
  match rev.dropWhile (fun c => c ≠ '.') with
  | [] => (s, "png")
  | _ :: baseRev => (⟨baseRev.reverse⟩, ⟨afterRev.reverse⟩)

/-- The output paths of the multi-variation save loop (lines 667-668):
`f"{base_name}_{i+1}.{extension}"` for `i` over the returned images. -/
def variationOutputPaths (output : String) (k : Nat) : List String :=
  (List.range k).map (fun i =>
    (variationBaseExt output).1 ++ "_" ++ toString (i + 1) ++ "."
      ++ (variationBaseExt output).2)

/-- Arguments of the `variations` subcommand that its handler reads. -/
structure VarArgs where
  input : String
  output : String
  provider : String
  n : Nat
  output_dir : Option String
  deriving Repr

/-- Embedding of `variations_command` (lines 637-674): resolve and load the
input image, reject the bfl provider, otherwise call the variations API and
save one file (`n = 1`) or the indexed series (`n ≠ 1`). Every raised error
is caught at lines 672-674, printed with an `Error: ` prefix, and exits 1. -/
def variations_command (fs : FS) (args : VarArgs) : CmdResult :=
  let resolved := resolve_input_path_str (fun p => (fs.file p).isSome)
    args.input args.output_dir
  let pr := process_image fs resolved
  match pr.2 with
  | Except.error msg => ⟨pr.1 ++ [CmdEvent.printed ("Error: " ++ msg)], 1⟩
  | Except.ok img =>
    if args.provider = "bfl" then
      ⟨pr.1 ++ [CmdEvent.printed "Error: Variations not supported with BFL provider"], 1⟩
    else
      match fs.variationsApi img.bytes args.n with
      | none =>
        ⟨pr.1 ++ [CmdEvent.apiCall,
          CmdEvent.printed "Error: variations API call failed"], 1⟩
      | some imgs =>
        if args.n = 1 then
          match imgs with
          | _ :: _ =>
            let out := resolve_output_path args.output args.output_dir
            ⟨pr.1 ++ [CmdEvent.apiCall, CmdEvent.saved out,
              CmdEvent.printed ("Image saved to " ++ out)], 0⟩
          | [] =>
            ⟨pr.1 ++ [CmdEvent.apiCall,
              CmdEvent.printed "Error: no image data"], 1⟩
        else
          let names := variationOutputPaths
            (resolve_output_path args.output args.output_dir) imgs.length
          ⟨pr.1 ++ [CmdEvent.apiCall]
            ++ (names.map (fun nm =>
                  [CmdEvent.saved nm,
                   CmdEvent.printed ("Image saved to " ++ nm)])).flatten, 0⟩

/-- The paths of the files a command saved, in order. -/
def savedPaths (res : CmdResult) : List String :=
  res.events.filterMap (fun e =>
    match e with
    | CmdEvent.saved p => some p
    | _ => none)

/-- Whether a command issued any network call (a raw GET or a provider API
call). -/
def hasNetEvent (res : CmdResult) : Bool :=
  res.events.any (fun e =>
    match e with
    | CmdEvent.netGet _ => true
    | CmdEvent.apiCall => true
    | _ => false)

/-! ### Temporary-file lifecycle in `edit_image` (lines 137-179) and
`create_variations` (lines 192-234)

Both functions create a temp input PNG (and `edit_image` a temp mask PNG
when a mask is given) and delete them in a `finally` block. The embedding
tracks only which temp files exist when the call returns (normally or by a
raised exception), as a function of which step, if any, raises first. Steps
before the `try` are outside the `finally`'s protection. -/

/-- The fallible steps of `edit_image` after the temp input file is created
at line 141: `openInput` is `open(temp_input_path, "rb")` (line 144),
`saveMask` is `mask_image.save(temp_mask_path, ...)` (line 157), `openMask`
is `open(temp_mask_path, "rb")` (line 158), and `insideTry` stands for any
step inside the `try` block (lines 160-171: the API call and response
decoding). -/
inductive EditCallStep where
  | openInput
  | saveMask
  | openMask
  | insideTry
  deriving DecidableEq, Repr

/-- Which temp files of `edit_image` still exist when the call exits. -/
structure TempFilesLeft where
  inputRemains : Bool
  maskRemains : Bool
  deriving DecidableEq, Repr

/-- Temp files left behind by `edit_image` (lines 137-179), given whether a
mask was supplied and which step (if any) raises first. A failure before the
`try` block skips the `finally` cleanup entirely; the mask steps only exist
when a mask is supplied; exits from inside the `try` (and normal returns)
run the `finally` block, which removes every temp file created. -/
def edit_image_temp_files (hasMask : Bool) (failAt : Option EditCallStep) :
    TempFilesLeft :=
  if failAt = some EditCallStep.openInput then ⟨true, false⟩
  else if hasMask = true ∧ failAt = some EditCallStep.saveMask then
    ⟨true, false⟩
  else if hasMask = true ∧ failAt = some EditCallStep.openMask then
    ⟨true, true⟩
  else ⟨false, false⟩

/-- The fallible steps of `create_variations` after the temp input file is
created at line 196: `openInput` is `open(temp_input_path, "rb")` (line
199), `insideTry` any step inside the `try` block (lines 206-230). -/
inductive VariationCallStep where
  | openInput
  | insideTry
  deriving DecidableEq, Repr

/-- Whether the temp input file of `create_variations` (lines 192-234) still
exists when the call exits, given which step (if any) raises first. -/
def create_variations_temp_file (failAt : Option VariationCallStep) : Bool :=
  if failAt = some VariationCallStep.openInput then true else false

/-! ### Input normalization in `bfl_edit_image` (lines 413-455) -/

/-- A PIL image, abstracted to the attributes the normalization code reads:
its size and color mode. -/
structure PILImage where
  width : Nat
  height : Nat
  mode : String
  deriving DecidableEq, Repr

/-- Model of PIL `Image.thumbnail((m, m), LANCZOS)` (line 449): scale the
image down to fit in an m-by-m box, preserving the aspect ratio; an image
already inside the box is unchanged, and result dimensions never exceed the
box (and are at least 1). -/
def thumbnail (m : Nat) (img : PILImage) : PILImage :=
  if img.width ≤ m ∧ img.height ≤ m then img
  else if img.width ≤ img.height then
    { img with width := max 1 (img.width * m / img.height), height := m }
  else
    { img with width := m, height := max 1 (img.height * m / img.width) }

/-- Mode normalization at lines 415-422: RGBA/LA images are pasted onto a
fresh white RGB background of the same size; any other non-RGB mode is
converted with `convert('RGB')`; RGB images pass through. -/
def bfl_normalize_mode (img : PILImage) : PILImage :=
  if img.mode = "RGBA" ∨ img.mode = "LA" then
    { width := img.width, height := img.height, mode := "RGB" }
  else if img.mode ≠ "RGB" then
    { img with mode := "RGB" }
  else img

/-- The encoded payload `bfl_edit_image` uploads as `input_image`:
re-encoding (line 453) happens after the optional resize, so the payload
always reflects the final image. -/
structure UploadPayload where
  format : String
  mode : String
  width : Nat
  height : Nat
  deriving DecidableEq, Repr

/-- Embedding of the upload preparation in `bfl_edit_image` (lines 413-455):
normalize the mode, encode as JPEG (quality 95, line 424), then if either
dimension exceeds 1536 shrink with `thumbnail((1536, 1536))` and re-encode
(lines 447-455). The result describes the payload actually sent. -/
def bfl_edit_prepare_upload (img : PILImage) : UploadPayload :=
  let img1 := bfl_normalize_mode img
  let img2 :=
    if img1.width > 1536 ∨ img1.height > 1536 then thumbnail 1536 img1
    else img1
  { format := "JPEG", mode := img2.mode, width := img2.width,
    height := img2.height }

/-! ## Helper lemmas -/

/-- Processing any non-empty response list issues at least one status GET. -/
theorem bfl_poll_loop_cons_pos (fetch : String → Option (List Nat))
    (r : StatusResponse) (rest : List StatusResponse) :
    1 ≤ (bfl_poll_loop fetch (r :: rest)).statusPolls := by
  simp only [bfl_poll_loop]
  split
  · simp
  · split
    · cases hs : r.sample with
      | some url =>
        simp only [hs]
        split
        · simp
        · cases hf : fetch url <;> simp [hf]
      | none => simp [hs]
    · split
      · simp
      · simp

/-- A prefix of HTTP-successful non-terminal responses is consumed without
terminating: the loop just adds one status poll per response and continues
on the remaining responses. -/
theorem bfl_poll_loop_append_nonterminal (fetch : String → Option (List Nat))
    (rs tail : List StatusResponse)
    (h : ∀ r ∈ rs, r.ok = true ∧ isNonTerminalStatus r.status = true) :
    bfl_poll_loop fetch (rs ++ tail) =
      ⟨(bfl_poll_loop fetch tail).outcome,
       rs.length + (bfl_poll_loop fetch tail).statusPolls,
       (bfl_poll_loop fetch tail).resultFetches⟩ := by
  induction rs with
  | nil => simp
  | cons r rest ih =>
    have hr := h r (by simp)
    have hready : ¬r.status = some "Ready" := by
      intro he
      have := hr.2
      rw [he] at this
      simp [isNonTerminalStatus] at this
    have hrec := ih (fun x hx => h x (by simp [hx]))
    simp only [List.cons_append, bfl_poll_loop, hr.1, hr.2, hready,
      if_false, if_true, hrec]
    simp only [Bool.true_eq_false, if_false]
    simp [hrec]
    omega

/-- Ready is a terminal status. -/
theorem ready_not_nonterminal :
    isNonTerminalStatus (some "Ready") = false := by
  decide

/-! ## Claim theorems -/

/-- C1: over any sequence of status responses (all HTTP-successful, with the
result fetch succeeding), the poll loop of `bfl_generate_image` /
`bfl_edit_image` returns a decoded image iff the first terminal response has
status `Ready` and carries a (non-empty) result URL; and while only
non-terminal statuses (`Queued`/`Processing`/`Pending`) arrive it has not
returned and is still polling. -/
theorem bfl_poll_returns_iff_first_terminal_ready
    (fetch : String → Option (List Nat)) (rs : List StatusResponse)
    (hok : ∀ r ∈ rs, r.ok = true)
    (hfetch : ∀ u : String, (fetch u).isSome = true) :
    ((∃ img, (bfl_poll_loop fetch rs).outcome = PollOutcome.returned img) ↔
      ∃ r, firstTerminal rs = some r ∧ r.status = some "Ready"
        ∧ hasSampleUrl r = true)
    ∧ (firstTerminal rs = none →
        (bfl_poll_loop fetch rs).outcome = PollOutcome.pending) := by
  induction rs with
  | nil =>
    refine ⟨?_, fun _ => ?_⟩
    · simp [bfl_poll_loop, firstTerminal]
    · simp [bfl_poll_loop]
  | cons r rest ih =>
    have hr : r.ok = true := hok r (by simp)
    obtain ⟨ih1, ih2⟩ := ih (fun x hx => hok x (by simp [hx]))
    by_cases hready : r.status = some "Ready"
    · have hterm : isNonTerminalStatus r.status = false := by
        rw [hready]; decide
      have hfind : firstTerminal (r :: rest) = some r := by
        simp [firstTerminal, List.find?_cons_of_pos, hterm]
      have hsingle : ∀ r', firstTerminal (r :: rest) = some r' → r = r' := by
        intro r' hr'
        rw [hfind] at hr'
        injection hr'
      cases hs : r.sample with
      | none =>
        have hout : (bfl_poll_loop fetch (r :: rest)).outcome =
            PollOutcome.errored bflNoUrlMsg := by
          simp [bfl_poll_loop, hr, hready, hs]
        refine ⟨?_, fun hnone => by simp [hfind] at hnone⟩
        constructor
        · rintro ⟨img, himg⟩
          rw [hout] at himg
          simp at himg
        · rintro ⟨r', hr', _, hurl⟩
          obtain rfl := hsingle r' hr'
          simp [hasSampleUrl, hs] at hurl
      | some url =>
        cases hemp : url.isEmpty with
        | true =>
          have hout : (bfl_poll_loop fetch (r :: rest)).outcome =
              PollOutcome.errored bflNoUrlMsg := by
            simp [bfl_poll_loop, hr, hready, hs, hemp]
          refine ⟨?_, fun hnone => by simp [hfind] at hnone⟩
          constructor
          · rintro ⟨img, himg⟩
            rw [hout] at himg
            simp at himg
          · rintro ⟨r', hr', _, hurl⟩
            obtain rfl := hsingle r' hr'
            simp [hasSampleUrl, hs, hemp] at hurl
        | false =>
          obtain ⟨bs, hbs⟩ := Option.isSome_iff_exists.mp (hfetch url)
          have hout : (bfl_poll_loop fetch (r :: rest)).outcome =
              PollOutcome.returned ⟨bs⟩ := by
            simp [bfl_poll_loop, hr, hready, hs, hemp, hbs]
          refine ⟨?_, fun hnone => by simp [hfind] at hnone⟩
          constructor
          · intro _
            exact ⟨r, hfind, hready, by simp [hasSampleUrl, hs, hemp]⟩
          · intro _
            exact ⟨⟨bs⟩, hout⟩
    · by_cases hnt : isNonTerminalStatus r.status = true
      · have hfind : firstTerminal (r :: rest) = firstTerminal rest := by
          simp [firstTerminal, List.find?_cons_of_neg, hnt]
        have hloop : (bfl_poll_loop fetch (r :: rest)).outcome =
            (bfl_poll_loop fetch rest).outcome := by
          simp [bfl_poll_loop, hr, hready, hnt]
        refine ⟨?_, ?_⟩
        · rw [hloop, hfind]; exact ih1
        · intro hnone
          rw [hfind] at hnone
          rw [hloop]
          exact ih2 hnone
      · have hterm : isNonTerminalStatus r.status = false := by
          simpa using hnt
        have hfind : firstTerminal (r :: rest) = some r := by
          simp [firstTerminal, List.find?_cons_of_pos, hterm]
        have hout : (bfl_poll_loop fetch (r :: rest)).outcome =
            PollOutcome.errored (bflFailMsg r) := by
          simp [bfl_poll_loop, hr, hready, hterm]
        refine ⟨?_, fun hnone => by simp [hfind] at hnone⟩
        constructor
        · rintro ⟨img, himg⟩
          rw [hout] at himg
          simp at himg
        · rintro ⟨r', hr', hst, _⟩
          rw [hfind] at hr'
          injection hr' with h2
          rw [h2] at hready
          exact absurd hst hready

/-- C1 witness: a concrete run — one `Ready` response with a result URL; the
poller returns the decoded image, matching the first-terminal condition. -/
theorem bfl_poll_returns_iff_first_terminal_ready_witness :
    (∃ img,
      (bfl_poll_loop (fun _ => some [5, 6])
        [⟨true, some "Queued", none, "q"⟩,
         ⟨true, some "Ready", some "http://r/img", "rdy"⟩]).outcome =
        PollOutcome.returned img) ↔
      (∃ r, firstTerminal
          [⟨true, some "Queued", none, "q"⟩,
           ⟨true, some "Ready", some "http://r/img", "rdy"⟩] = some r ∧
        r.status = some "Ready" ∧ hasSampleUrl r = true) :=
  (bfl_poll_returns_iff_first_terminal_ready (fun _ => some [5, 6])
    [⟨true, some "Queued", none, "q"⟩,
     ⟨true, some "Ready", some "http://r/img", "rdy"⟩]
    (by decide) (fun _ => by simp)).1

/-- C2: the poll loop has no maximum retry count and no overall timeout:
after n HTTP-successful non-terminal responses it has issued exactly n
status polls without returning (the loop is still waiting), and any
continuation of the response sequence costs at least n + 1 status polls. -/
theorem bfl_poll_no_retry_bound (fetch : String → Option (List Nat))
    (rs : List StatusResponse)
    (h : ∀ r ∈ rs, r.ok = true ∧ isNonTerminalStatus r.status = true) :
    (bfl_poll_loop fetch rs).outcome = PollOutcome.pending
    ∧ (bfl_poll_loop fetch rs).statusPolls = rs.length
    ∧ ∀ (r : StatusResponse) (rest : List StatusResponse),
        rs.length + 1 ≤ (bfl_poll_loop fetch (rs ++ r :: rest)).statusPolls := by
  have hnil := bfl_poll_loop_append_nonterminal fetch rs [] h
  rw [List.append_nil] at hnil
  refine ⟨?_, ?_, ?_⟩
  · rw [hnil]
    simp [bfl_poll_loop]
  · rw [hnil]
    simp [bfl_poll_loop]
  · intro r rest
    rw [bfl_poll_loop_append_nonterminal fetch rs (r :: rest) h]
    have hpos := bfl_poll_loop_cons_pos fetch r rest
    simp only
    omega

/-- C2 witness: one `Queued` response leaves the loop still pending after
exactly its one poll, and extending the sequence costs at least two polls. -/
theorem bfl_poll_no_retry_bound_witness :
    (bfl_poll_loop (fun _ => none)
        [⟨true, some "Queued", none, "q"⟩]).outcome = PollOutcome.pending
    ∧ 2 ≤ (bfl_poll_loop (fun _ => none)
        ([⟨true, some "Queued", none, "q"⟩]
          ++ [⟨true, some "Processing", none, "p"⟩,
              ⟨true, some "Ready", some "u", "r"⟩])).statusPolls := by
  have h := bfl_poll_no_retry_bound (fun _ => none)
    [⟨true, some "Queued", none, "q"⟩] (by decide)
  exact ⟨h.1, h.2.2 ⟨true, some "Processing", none, "p"⟩
    [⟨true, some "Ready", some "u", "r"⟩]⟩

/-- C3: on a status sequence `[Queued, Processing, Ready]` whose final
response carries a result URL, the poller issues exactly 3 status GETs and
exactly 1 result-fetch GET, and returns the image decoded from the fetched
bytes. -/
theorem bfl_poll_three_polls_one_fetch (fetch : String → Option (List Nat))
    (u : String) (bs : List Nat) (s1 s2 : Option String)
    (raw1 raw2 raw3 : String)
    (hu : u.isEmpty = false) (hf : fetch u = some bs) :
    bfl_poll_loop fetch
        [⟨true, some "Queued", s1, raw1⟩,
         ⟨true, some "Processing", s2, raw2⟩,
         ⟨true, some "Ready", some u, raw3⟩] =
      ⟨PollOutcome.returned ⟨bs⟩, 3, 1⟩ := by
  simp [bfl_poll_loop, isNonTerminalStatus, hu, hf]

/-- C3 witness: the concrete three-response run with a fixed result URL and
fixed fetched bytes. -/
theorem bfl_poll_three_polls_one_fetch_witness :
    bfl_poll_loop (fun v => if v = "http://r/img" then some [5, 6] else none)
        [⟨true, some "Queued", none, "q"⟩,
         ⟨true, some "Processing", none, "p"⟩,
         ⟨true, some "Ready", some "http://r/img", "rdy"⟩] =
      ⟨PollOutcome.returned ⟨[5, 6]⟩, 3, 1⟩ :=
  bfl_poll_three_polls_one_fetch
    (fun v => if v = "http://r/img" then some [5, 6] else none)
    "http://r/img" [5, 6] none none "q" "p" "rdy" (by decide) (by decide)

/-- C4: when a status poll returns an HTTP-successful response whose status
lies outside {Ready, Processing, Queued, Pending} (after any prefix of
non-terminal responses), the poller raises, and the raised message contains
both the literal status string and the full raw response payload. -/
theorem bfl_poll_unknown_status_fails (fetch : String → Option (List Nat))
    (pre rest : List StatusResponse) (r : StatusResponse) (s : String)
    (hpre : ∀ x ∈ pre, x.ok = true ∧ isNonTerminalStatus x.status = true)
    (hok : r.ok = true) (hs : r.status = some s)
    (hnotReady : s ≠ "Ready") (hnotProc : s ≠ "Processing")
    (hnotQ : s ≠ "Queued") (hnotPend : s ≠ "Pending") :
    (bfl_poll_loop fetch (pre ++ r :: rest)).outcome =
        PollOutcome.errored (bflFailMsg r)
    ∧ (∃ a b, bflFailMsg r = a ++ s ++ b)
    ∧ (∃ c d, bflFailMsg r = c ++ r.raw ++ d) := by
  have hterm : isNonTerminalStatus r.status = false := by
    simp [isNonTerminalStatus, hs, hnotProc, hnotQ, hnotPend]
  have hready : ¬r.status = some "Ready" := by
    rw [hs]; simp [hnotReady]
  refine ⟨?_, ?_, ?_⟩
  · rw [bfl_poll_loop_append_nonterminal fetch pre (r :: rest) hpre]
    simp [bfl_poll_loop, hok, hready, hterm]
  · refine ⟨"Generation failed with status: ",
      ". Full response: " ++ r.raw, ?_⟩
    simp [bflFailMsg, statusText, hs, String.append_assoc]
  · refine ⟨"Generation failed with status: " ++ s ++ ". Full response: ",
      "", ?_⟩
    simp [bflFailMsg, statusText, hs, String.append_assoc]

/-- C4 witness: a terminal `Error` response produces the failure error, whose
message contains the status string and the raw payload. -/
theorem bfl_poll_unknown_status_fails_witness :
    (bfl_poll_loop (fun _ => none)
        [⟨true, some "Error", none, "rawbody"⟩]).outcome =
      PollOutcome.errored (bflFailMsg ⟨true, some "Error", none, "rawbody"⟩)
    ∧ (∃ a b, bflFailMsg ⟨true, some "Error", none, "rawbody"⟩
        = a ++ "Error" ++ b)
    ∧ (∃ c d, bflFailMsg ⟨true, some "Error", none, "rawbody"⟩
        = c ++ "rawbody" ++ d) :=
  bfl_poll_unknown_status_fails (fun _ => none) [] []
    ⟨true, some "Error", none, "rawbody"⟩ "Error" (by simp) rfl rfl
    (by decide) (by decide) (by decide) (by decide)

/-- C5: if the submission POST succeeds but its response carries no request
id (or an empty one), the call fails with the no-request-id error having
issued zero status polls — hence zero sleeps — and zero result fetches. -/
theorem bfl_submit_missing_id_fails (submit : SubmitResponse)
    (fetch : String → Option (List Nat)) (statuses : List StatusResponse)
    (hok : submit.ok = true) (hid : hasRequestId submit = false) :
    bfl_submit_then_poll submit fetch statuses =
      ⟨PollOutcome.errored bflNoIdMsg, 0, 0⟩ := by
  simp [bfl_submit_then_poll, hok, hid]

/-- C5 witness: a successful POST whose response has no `id` field. -/
theorem bfl_submit_missing_id_fails_witness :
    bfl_submit_then_poll ⟨true, none⟩ (fun _ => none)
        [⟨true, some "Ready", some "u", "r"⟩] =
      ⟨PollOutcome.errored bflNoIdMsg, 0, 0⟩ :=
  bfl_submit_missing_id_fails ⟨true, none⟩ (fun _ => none)
    [⟨true, some "Ready", some "u", "r"⟩] rfl rfl

/-- C6 counterexample: with a URL input, `variations_command` under
`--provider bfl` performs a network GET (the input download in
`process_image`, which runs before the provider check at line 643) and only
then prints the unsupported-operation error and exits 1 — so a network call
is made before the exit, refuting the claim for URL inputs. -/
theorem variations_bfl_url_network_call :
    variations_command
        ⟨fun _ => none, fun _ => some [9], fun _ _ => none⟩
        ⟨"http://a/in.png", "out.png", "bfl", 1, none⟩ =
      ⟨[CmdEvent.netGet "http://a/in.png",
        CmdEvent.printed "Error: Variations not supported with BFL provider"],
       1⟩
    ∧ hasNetEvent (variations_command
        ⟨fun _ => none, fun _ => some [9], fun _ _ => none⟩
        ⟨"http://a/in.png", "out.png", "bfl", 1, none⟩) = true := by
  exact ⟨rfl, rfl⟩

/-- C6 amended: when the resolved input path is not a URL and names a
readable local image, `variations --provider bfl` prints exactly the
unsupported-operation error and exits with code 1, with no network call;
a URL input instead incurs one GET (downloading the input) before the same
exit, and an unreadable input exits 1 with an input error instead. -/
theorem variations_bfl_local_no_network (fs : FS) (args : VarArgs)
    (bs : List Nat)
    (hp : args.provider = "bfl")
    (hnu : strStartsWith (resolve_input_path_str (fun p => (fs.file p).isSome)
        args.input args.output_dir) "http://" = false)
    (hns : strStartsWith (resolve_input_path_str (fun p => (fs.file p).isSome)
        args.input args.output_dir) "https://" = false)
    (hfile : fs.file (resolve_input_path_str (fun p => (fs.file p).isSome)
        args.input args.output_dir) = some bs) :
    variations_command fs args =
      ⟨[CmdEvent.printed "Error: Variations not supported with BFL provider"],
       1⟩ := by
  have hproc : process_image fs (resolve_input_path_str
      (fun p => (fs.file p).isSome) args.input args.output_dir) =
      ([], Except.ok ⟨bs⟩) := by
    unfold process_image
    rw [hnu, hns]
    simp [hfile]
  simp only [variations_command]
  rw [hproc]
  simp [hp]

/-- C6 amended witness: a readable local input under the bfl provider. -/
theorem variations_bfl_local_no_network_witness :
    variations_command
        ⟨fun p => if p = "in.png" then some [1] else none, fun _ => none,
         fun _ _ => none⟩
        ⟨"in.png", "out.png", "bfl", 1, none⟩ =
      ⟨[CmdEvent.printed "Error: Variations not supported with BFL provider"],
       1⟩ :=
  variations_bfl_local_no_network
    ⟨fun p => if p = "in.png" then some [1] else none, fun _ => none,
     fun _ _ => none⟩
    ⟨"in.png", "out.png", "bfl", 1, none⟩ [1] rfl (by decide) (by decide)
    (by decide)

/-- C7 counterexample: in `edit_image` with a mask, an error raised while
saving the mask (line 157, before the `try` block begins at line 160)
returns with the temp input PNG still on disk; likewise an error opening the
temp input of `create_variations` (line 199) leaks it — refuting removal on
every exit path. -/
theorem edit_image_temp_leak :
    (edit_image_temp_files true (some EditCallStep.saveMask)).inputRemains
        = true
    ∧ create_variations_temp_file (some VariationCallStep.openInput) = true := by
  decide

/-- C7 amended: the temporary upload files are removed on normal return and
whenever any step inside the `try` block raises; only a failure in the
pre-`try` steps (opening the temp input, saving or opening the temp mask)
returns with the already-created temp file(s) still present. -/
theorem temp_files_removed_inside_try (hasMask : Bool) :
    edit_image_temp_files hasMask none = ⟨false, false⟩
    ∧ edit_image_temp_files hasMask (some EditCallStep.insideTry)
        = ⟨false, false⟩
    ∧ create_variations_temp_file none = false
    ∧ create_variations_temp_file (some VariationCallStep.insideTry) = false := by
  cases hasMask <;> decide

/-- The events of `process_image` never include a file save. -/
theorem process_image_no_saved (fs : FS) (path : String) :
    (process_image fs path).1.filterMap (fun e =>
      match e with
      | CmdEvent.saved p => some p
      | _ => none) = [] := by
  unfold process_image
  by_cases hc : (strStartsWith path "http://" || strStartsWith path "https://") = true
  · rw [if_pos hc]
    cases fs.url path <;> simp
  · rw [if_neg hc]
    cases fs.file path <;> simp

/-- Extracting the saved paths from the save-then-print event pairs of the
multi-variation loop yields exactly the list of output names. -/
theorem filterMap_saved_flatten (names : List String) :
    ((names.map (fun nm =>
        [CmdEvent.saved nm,
         CmdEvent.printed ("Image saved to " ++ nm)])).flatten).filterMap
      (fun e =>
        match e with
        | CmdEvent.saved p => some p
        | _ => none) = names := by
  induction names with
  | nil => rfl
  | cons n ns ih => simp [ih]

/-- C8: when the variations API returns the images for an `n ≠ 1` request,
`variations_command` saves them, in order, to paths named by appending
`_<index>` (1-based) before the extension of the resolved output path; for
output `out.png` and 3 images these are `out_1.png`, `out_2.png`,
`out_3.png`. -/
theorem variations_multi_save_names (fs : FS) (args : VarArgs)
    (img : DecodedImage) (imgs : List (List Nat))
    (hp : ¬args.provider = "bfl")
    (himg : (process_image fs (resolve_input_path_str
        (fun p => (fs.file p).isSome) args.input args.output_dir)).2 =
      Except.ok img)
    (happ : fs.variationsApi img.bytes args.n = some imgs)
    (hn : ¬args.n = 1) :
    savedPaths (variations_command fs args) =
      variationOutputPaths (resolve_output_path args.output args.output_dir)
        imgs.length
    ∧ variationOutputPaths "out.png" 3
        = ["out_1.png", "out_2.png", "out_3.png"] := by
  have hcmd : variations_command fs args =
      ⟨(process_image fs (resolve_input_path_str
          (fun p => (fs.file p).isSome) args.input args.output_dir)).1
        ++ [CmdEvent.apiCall]
        ++ ((variationOutputPaths
              (resolve_output_path args.output args.output_dir)
              imgs.length).map (fun nm =>
                [CmdEvent.saved nm,
                 CmdEvent.printed ("Image saved to " ++ nm)])).flatten,
       0⟩ := by
    simp only [variations_command]
    rw [himg]
    simp [hp, happ, hn]
  refine ⟨?_, by decide⟩
  rw [hcmd]
  simp only [savedPaths, List.filterMap_append, process_image_no_saved,
    filterMap_saved_flatten]
  simp

/-- C8 witness: a readable input, three returned variations, output
`out.png`. -/
theorem variations_multi_save_names_witness :
    savedPaths (variations_command
        ⟨fun p => if p = "in.png" then some [1] else none, fun _ => none,
         fun _ k => some (List.replicate k [7])⟩
        ⟨"in.png", "out.png", "openai", 3, none⟩) =
      variationOutputPaths (resolve_output_path "out.png" none)
        (List.replicate 3 ([7] : List Nat)).length :=
  (variations_multi_save_names
    ⟨fun p => if p = "in.png" then some [1] else none, fun _ => none,
     fun _ k => some (List.replicate k [7])⟩
    ⟨"in.png", "out.png", "openai", 3, none⟩ ⟨[1]⟩ [[7], [7], [7]]
    (by decide) rfl rfl (by decide)).1

/-- C9: `resolve_input_path` maps `None` to `None`; it leaves URLs and
absolute paths unchanged; and a relative path with a truthy base directory
resolves to the joined path exactly when that joined path exists, remaining
unchanged otherwise (and always when no base directory is given). -/
theorem resolve_input_path_spec (ex : String → Bool) (p b : String) :
    resolve_input_path ex none (some b) = none
    ∧ resolve_input_path ex none none = none
    ∧ resolve_input_path ex (some p) none = some p
    ∧ resolve_input_path ex (some p) (some b) =
        some (if strStartsWith p "http://" || strStartsWith p "https://" then p
          else if strStartsWith p "/" then p
          else if b ≠ "" ∧ ex (pathJoin b p) = true then pathJoin b p
          else p) := by
  refine ⟨rfl, rfl, ?_, ?_⟩
  · simp [resolve_input_path, resolve_input_path_str]
  · simp only [resolve_input_path, Option.some.injEq, resolve_input_path_str]
    by_cases hu : (strStartsWith p "http://" || strStartsWith p "https://") = true
    · simp [hu]
    · by_cases ha : strStartsWith p "/" = true
      · simp [hu, ha]
      · by_cases hb : b = ""
        · simp [hu, ha, hb]
        · by_cases hex : ex (pathJoin b p) = true
          · simp [hu, ha, hb, hex]
          · simp [hu, ha, hb, hex]

/-- Scaling the smaller dimension by m over the larger never exceeds m. -/
theorem div_scale_le (w h m : Nat) (hwh : w ≤ h) (hm : 1 ≤ m) :
    max 1 (w * m / h) ≤ m := by
  rcases Nat.eq_zero_or_pos h with hz | hpos
  · have hw : w = 0 := by omega
    subst hz
    subst hw
    simpa using hm
  · have h1 : w * m ≤ h * m := Nat.mul_le_mul_right m hwh
    have h2 : w * m / h ≤ h * m / h := Nat.div_le_div_right h1
    have h3 : h * m / h = m := Nat.mul_div_cancel_left m hpos
    omega

/-- `thumbnail` never produces a dimension above the box size. -/
theorem thumbnail_dims_le (m : Nat) (hm : 1 ≤ m) (j : PILImage) :
    (thumbnail m j).width ≤ m ∧ (thumbnail m j).height ≤ m := by
  unfold thumbnail
  by_cases h1 : j.width ≤ m ∧ j.height ≤ m
  · rw [if_pos h1]
    exact h1
  · rw [if_neg h1]
    by_cases h2 : j.width ≤ j.height
    · rw [if_pos h2]
      exact ⟨div_scale_le j.width j.height m h2 hm, le_refl m⟩
    · rw [if_neg h2]
      exact ⟨le_refl m, div_scale_le j.height j.width m (by omega) hm⟩

/-- `thumbnail` preserves the color mode. -/
theorem thumbnail_mode (m : Nat) (j : PILImage) :
    (thumbnail m j).mode = j.mode := by
  unfold thumbnail
  by_cases h1 : j.width ≤ m ∧ j.height ≤ m
  · rw [if_pos h1]
  · rw [if_neg h1]
    by_cases h2 : j.width ≤ j.height
    · rw [if_pos h2]
    · rw [if_neg h2]

/-- The mode normalization always yields RGB. -/
theorem bfl_normalize_mode_rgb (img : PILImage) :
    (bfl_normalize_mode img).mode = "RGB" := by
  unfold bfl_normalize_mode
  by_cases h1 : img.mode = "RGBA" ∨ img.mode = "LA"
  · rw [if_pos h1]
  · rw [if_neg h1]
    by_cases h2 : img.mode ≠ "RGB"
    · rw [if_pos h2]
    · rw [if_neg h2]
      simpa using h2

/-- C10: the payload `bfl_edit_image` uploads is always an RGB JPEG whose
width and height are both at most 1536 — RGBA/LA inputs are composited onto
a white background, other non-RGB modes converted, and any image with a
dimension above 1536 is shrunk with `thumbnail((1536, 1536))` and
re-encoded. -/
theorem bfl_edit_upload_rgb_bounded (img : PILImage) :
    (bfl_edit_prepare_upload img).mode = "RGB"
    ∧ (bfl_edit_prepare_upload img).format = "JPEG"
    ∧ (bfl_edit_prepare_upload img).width ≤ 1536
    ∧ (bfl_edit_prepare_upload img).height ≤ 1536 := by
  have hmode := bfl_normalize_mode_rgb img
  simp only [bfl_edit_prepare_upload]
  by_cases hbig : (bfl_normalize_mode img).width > 1536
      ∨ (bfl_normalize_mode img).height > 1536
  · rw [if_pos hbig]
    refine ⟨?_, trivial, ?_, ?_⟩
    · rw [thumbnail_mode]
      exact hmode
    · exact (thumbnail_dims_le 1536 (by omega) (bfl_normalize_mode img)).1
    · exact (thumbnail_dims_le 1536 (by omega) (bfl_normalize_mode img)).2
  · rw [if_neg hbig]
    exact ⟨hmode, trivial, by omega, by omega⟩

end Imagine
